import Mathlib

/-!
Shallow embedding of the authentication core of the Expense-Manager app:
`src/services/security/pinService.ts`, `src/services/security/biometricService.ts`
and `src/stores/authStore.ts`.

The secure store is modelled as a record of optional string-valued slots
(one per storage key that the authentication code touches); `SecureStore`
I/O never fails in the model.  The cryptographic digest is a parameter
`digest : String → String`; `hashPin pin salt = digest (pin ++ salt)`
mirrors `Crypto.digestStringAsync(SHA256, pin + salt)`.  Random salt
generation is modelled by passing the generated salt as an argument.
JavaScript truthiness of strings (`!s` is true for `null` and `""`) is
modelled explicitly where the source uses it.  Clock reads (`Date.now()`)
are passed as an explicit `now : Nat` argument.
-/

set_option autoImplicit false

namespace ExpenseManager

/-- A stored security question: `{ question, answerHash }`
(interface `SecurityQuestion` in pinService.ts).  The JSON round-trip
through `SECURITY_QUESTIONS` is modelled as storing the list directly. -/
structure SecurityQuestion where
  question : String
  answerHash : String
deriving DecidableEq, Repr

/-- The secure-store slots the authentication code reads and writes
(keys `PIN_HASH`, `PIN_SALT`, `FIRST_LAUNCH`, `SECURITY_QUESTIONS`).
`none` models an absent key (`getItemAsync` returning `null`). -/
structure Store where
  pinHash : Option String
  pinSalt : Option String
  firstLaunch : Option String
  securityQuestions : Option (List SecurityQuestion)
deriving DecidableEq, Repr

/-- JavaScript falsiness of a nullable string: `!s` holds for `null`
and for the empty string. -/
def jsFalsy : Option String → Bool
  | none => true
  | some s => s.isEmpty

/-- `hashPin(pin, salt)`: digest of the string concatenation `pin + salt`. -/
def hashPin (digest : String → String) (pin salt : String) : String :=
  digest (pin ++ salt)

/-- `isPinSetup()`: true iff `PIN_HASH` is present (`pinHash !== null`). -/
def isPinSetup (s : Store) : Bool :=
  s.pinHash.isSome

/-- `setupPin(pin)`: writes a fresh salt, the hash of `pin + salt`, and
marks first launch complete; returns the updated store and `true`.
The randomly generated salt is passed in as `salt`. -/
def setupPin (digest : String → String) (salt pin : String) (s : Store) :
    Store × Bool :=
  ({ s with
      pinSalt := some salt,
      pinHash := some (hashPin digest pin salt),
      firstLaunch := some "false" }, true)

/-- `verifyPin(pin)`: loads hash and salt; `if (!storedHash || !salt)
return false`; otherwise recomputes the digest and compares by string
equality. -/
def verifyPin (digest : String → String) (pin : String) (s : Store) : Bool :=
  match s.pinHash, s.pinSalt with
  | some storedHash, some salt =>
      if storedHash.isEmpty || salt.isEmpty then false
      else hashPin digest pin salt == storedHash
  | some storedHash, none =>
      if storedHash.isEmpty then false else false
  | none, _ => false

/-- `changePin(currentPin, newPin)`: verifies the current PIN first and
returns `{ success: false, error: 'Current PIN is incorrect' }` on
failure; otherwise runs `setupPin(newPin)` (with a fresh salt `newSalt`).
The result models `{ success, error? }` as `Bool × Option String`. -/
def changePin (digest : String → String) (newSalt currentPin newPin : String)
    (s : Store) : Store × (Bool × Option String) :=
  if verifyPin digest currentPin s then
    let r := setupPin digest newSalt newPin s
    if r.2 then (r.1, (true, none))
    else (r.1, (false, some "Failed to set new PIN"))
  else (s, (false, some "Current PIN is incorrect"))

/-- `resetPin(newPin)`: deletes `PIN_HASH` and `PIN_SALT`, then runs
`setupPin(newPin)` with a fresh salt. -/
def resetPin (digest : String → String) (newSalt newPin : String)
    (s : Store) : Store × Bool :=
  setupPin digest newSalt newPin
    { s with pinHash := none, pinSalt := none }

/-- Answer normalization used by the security-question code:
`answer.toLowerCase().trim()`. -/
def normalizeAnswer (a : String) : String :=
  a.toLower.trim

/-- `saveSecurityQuestions(questions)`: reads the credential salt,
`if (!salt) return false`, otherwise hashes each answer (lower-cased and
trimmed) with that salt and stores the `{question, answerHash}` list. -/
def saveSecurityQuestions (digest : String → String)
    (questions : List (String × String)) (s : Store) : Store × Bool :=
  match s.pinSalt with
  | none => (s, false)
  | some salt =>
      if salt.isEmpty then (s, false)
      else
        let hashed := questions.map fun q =>
          SecurityQuestion.mk q.1 (hashPin digest (normalizeAnswer q.2) salt)
        ({ s with securityQuestions := some hashed }, true)

/-- The `for` loop of `verifySecurityAnswers`: walks the stored questions
positionally against the supplied answers.  Reading past the end of the
answers array makes `answers[i].toLowerCase()` throw, and the surrounding
`catch` returns `false`; a hash mismatch returns `false` immediately. -/
def checkAnswers (digest : String → String) (salt : String) :
    List SecurityQuestion → List String → Bool
  | [], _ => true
  | _ :: _, [] => false
  | q :: qs, a :: rest =>
      if hashPin digest (normalizeAnswer a) salt == q.answerHash then
        checkAnswers digest salt qs rest
      else false

/-- `verifySecurityAnswers(answers)`: loads the stored question list and
the credential salt, `if (!stored || !salt) return false`, then runs the
positional comparison loop. -/
def verifySecurityAnswers (digest : String → String) (answers : List String)
    (s : Store) : Bool :=
  match s.securityQuestions, s.pinSalt with
  | some qs, some salt =>
      if salt.isEmpty then false
      else checkAnswers digest salt qs answers
  | some _, none => false
  | none, _ => false

/-- `hasSecurityQuestions()`: true iff the `SECURITY_QUESTIONS` key is
present. -/
def hasSecurityQuestions (s : Store) : Bool :=
  s.securityQuestions.isSome

/-! ### Rate limiter (module-level mutable state in pinService.ts) -/

/-- `SECURITY.MAX_FAILED_ATTEMPTS` from utils/constants.ts. -/
def MAX_FAILED_ATTEMPTS : Nat := 5

/-- `SECURITY.LOCKOUT_DURATION_MS` from utils/constants.ts. -/
def LOCKOUT_DURATION_MS : Nat := 30000

/-- `RateLimitState` interface: `{ failedAttempts, lockUntil }` with
`lockUntil : number | null`. -/
structure RateLimitState where
  failedAttempts : Nat
  lockUntil : Option Nat
deriving DecidableEq, Repr

/-- The initial module-level state: `{ failedAttempts: 0, lockUntil: null }`. -/
def initialRateLimitState : RateLimitState :=
  { failedAttempts := 0, lockUntil := none }

/-- JavaScript falsiness of `lockUntil : number | null`: `!lockUntil`
holds for `null` and for `0`. -/
def lockFalsy : Option Nat → Bool
  | none => true
  | some t => t == 0

/-- `isLocked()`: `if (!lockUntil) return false`; if the clock has reached
`lockUntil`, lazily resets both fields and returns false; otherwise true.
Returns the result together with the mutated state. -/
def isLocked (now : Nat) (st : RateLimitState) : Bool × RateLimitState :=
  match st.lockUntil with
  | none => (false, st)
  | some t =>
      if t == 0 then (false, st)
      else if now ≥ t then
        (false, { failedAttempts := 0, lockUntil := none })
      else (true, st)

/-- `getRemainingLockTime()`: `0` when `!lockUntil`, else
`Math.max(0, lockUntil - Date.now())` (truncated `Nat` subtraction). -/
def getRemainingLockTime (now : Nat) (st : RateLimitState) : Nat :=
  match st.lockUntil with
  | none => 0
  | some t => if t == 0 then 0 else t - now

/-- `recordFailedAttempt()`: increments `failedAttempts`; whenever the new
count is `≥ MAX_FAILED_ATTEMPTS`, sets `lockUntil = Date.now() +
LOCKOUT_DURATION_MS`. -/
def recordFailedAttempt (now : Nat) (st : RateLimitState) : RateLimitState :=
  let fa := st.failedAttempts + 1
  { failedAttempts := fa,
    lockUntil :=
      if MAX_FAILED_ATTEMPTS ≤ fa then some (now + LOCKOUT_DURATION_MS)
      else st.lockUntil }

/-- `resetRateLimit()`: zeroes both fields. -/
def resetRateLimit : RateLimitState :=
  { failedAttempts := 0, lockUntil := none }

/-- A sequence of consecutive `recordFailedAttempt()` calls, earliest
call first in the list of clock readings. -/
def recordFailures (st : RateLimitState) : List Nat → RateLimitState
  | [] => st
  | t :: ts => recordFailures (recordFailedAttempt t st) ts

/-! ### Biometric service (biometricService.ts) -/

/-- Outcome of the platform biometric challenge
(`LocalAuthentication.authenticateAsync`): success, or an error code. -/
inductive ChallengeOutcome where
  | success
  | failure (code : String)
deriving DecidableEq, Repr

/-- The `{ success, error? }` result shape of `authenticateWithBiometric`. -/
structure BioResult where
  success : Bool
  error : Option String
deriving DecidableEq, Repr

/-- `authenticateWithBiometric(promptMessage)`: short-circuits when the
device is unsupported/unenrolled or the feature is disabled, otherwise
runs the platform challenge and maps its error codes.  `hasHardware` and
`isEnrolled` model the platform capability checks of
`isBiometricSupported`, `enabled` the stored `BIOMETRIC_ENABLED` flag.
The second component records whether the platform prompt was invoked. -/
def authenticateWithBiometric (hasHardware isEnrolled enabled : Bool)
    (challenge : ChallengeOutcome) : BioResult × Bool :=
  if !(hasHardware && isEnrolled) then
    ({ success := false, error := some "Biometric not supported on this device" },
      false)
  else if !enabled then
    ({ success := false, error := some "Biometric authentication is not enabled" },
      false)
  else
    match challenge with
    | .success => ({ success := true, error := none }, true)
    | .failure "user_cancel" =>
        ({ success := false, error := some "Authentication cancelled" }, true)
    | .failure "user_fallback" =>
        ({ success := false, error := some "Use PIN instead" }, true)
    | .failure "lockout" =>
        ({ success := false,
           error := some "Too many failed attempts. Try again later." }, true)
    | .failure _ =>
        ({ success := false, error := some "Authentication failed" }, true)

/-! ### Auth store (authStore.ts) -/

/-- `authenticate(pin)` from authStore.ts, as a function of the clock, the
secure store and the rate-limit state: checks `isLocked()` first and
returns false while locked; on a correct PIN calls `resetRateLimit()`;
on a wrong PIN calls `recordFailedAttempt()`.  Returns the boolean result
and the rate-limit state after the call. -/
def authenticate (digest : String → String) (now : Nat) (pin : String)
    (store : Store) (rl : RateLimitState) : Bool × RateLimitState :=
  let locked := isLocked now rl
  if locked.1 then (false, locked.2)
  else if verifyPin digest pin store then (true, resetRateLimit)
  else (false, recordFailedAttempt now locked.2)

/-- `authenticateBiometric()` from authStore.ts: calls
`authenticateWithBiometric` and reports its success; it never touches the
rate-limiter, so the rate-limit state is passed through unchanged. -/
def authenticateBiometric (hasHardware isEnrolled enabled : Bool)
    (challenge : ChallengeOutcome) (rl : RateLimitState) :
    Bool × RateLimitState :=
  ((authenticateWithBiometric hasHardware isEnrolled enabled challenge).1.success,
    rl)

/-- `clearPin()` from authStore.ts: deletes `PIN_HASH` and `PIN_SALT`. -/
def clearPin (s : Store) : Store :=
  { s with pinHash := none, pinSalt := none }

/-! ### Helper lemmas -/

/-- Appending the same suffix to distinct strings keeps them distinct. -/
theorem append_right_ne (a b c : String) (h : a ≠ b) : a ++ c ≠ b ++ c := by
  intro hc
  apply h
  have hd := congrArg String.data hc
  simp [String.data_append] at hd
  exact String.ext hd

/-- A nonempty string is not `isEmpty`. -/
theorem isEmpty_false_of_ne (s : String) (h : s ≠ "") : s.isEmpty = false := by
  cases he : s.isEmpty
  · rfl
  · exact absurd ((String.isEmpty_iff s).mp he) h

/-- When `isLocked` answers `true`, it has not mutated the state. -/
theorem isLocked_true_frame (now : Nat) (rl : RateLimitState)
    (h : (isLocked now rl).1 = true) : (isLocked now rl).2 = rl := by
  unfold isLocked at *
  cases hl : rl.lockUntil with
  | none => simp [hl] at h
  | some t =>
      simp only [hl] at h ⊢
      by_cases h0 : t == 0
      · simp [h0] at h
      · by_cases hge : now ≥ t
        · simp [h0, hge] at h
        · simp [h0, hge]

/-- A digest used only in closed-form instances below: prefixes its input
with a marker character, so it is injective and never empty. -/
def demoDigest (x : String) : String :=
  "d" ++ x

theorem demoDigest_injective : Function.Injective demoDigest := by
  intro a b h
  have hd := congrArg String.data h
  simp [demoDigest, String.data_append] at hd
  exact String.ext hd

theorem demoDigest_ne_empty (x : String) : demoDigest x ≠ "" := by
  intro h
  have hd := congrArg String.data h
  simp [demoDigest, String.data_append] at hd

/-! ### Claims about the rate limiter -/

/-- C2: from the initial state, five consecutive `recordFailedAttempt()`
calls (at arbitrary clock readings, the fifth at `t5`) leave the limiter
locked, and immediately after the fifth failure the remaining lock time
is exactly `LOCKOUT_DURATION_MS`. -/
theorem lockout_after_five_failures (t1 t2 t3 t4 t5 : Nat) :
    (isLocked t5 (recordFailures initialRateLimitState [t1, t2, t3, t4, t5])).1
      = true ∧
    getRemainingLockTime t5
        (recordFailures initialRateLimitState [t1, t2, t3, t4, t5])
      = LOCKOUT_DURATION_MS := by
  have h : recordFailures initialRateLimitState [t1, t2, t3, t4, t5] =
      { failedAttempts := 5, lockUntil := some (t5 + LOCKOUT_DURATION_MS) } := by
    simp [recordFailures, recordFailedAttempt, initialRateLimitState,
      MAX_FAILED_ATTEMPTS]
  rw [h]
  unfold isLocked getRemainingLockTime LOCKOUT_DURATION_MS
  simp

/-- C3: any locked state (`failedAttempts ≥ MAX`, positive `lockUntil`)
queried at a clock at or past `lockUntil` reports unlocked and resets to
the initial state, and a failure recorded after that behaves as a first
failure (count 1, no lock). -/
theorem lock_expiry_resets (fa t now now2 : Nat)
    (_hfa : MAX_FAILED_ATTEMPTS ≤ fa) (ht : 0 < t) (hnow : t ≤ now) :
    isLocked now { failedAttempts := fa, lockUntil := some t } =
      (false, initialRateLimitState) ∧
    recordFailedAttempt now2
        (isLocked now { failedAttempts := fa, lockUntil := some t }).2 =
      { failedAttempts := 1, lockUntil := none } := by
  have h : isLocked now { failedAttempts := fa, lockUntil := some t } =
      (false, initialRateLimitState) := by
    have h0 : (t == 0) = false := by
      simp
      omega
    unfold isLocked initialRateLimitState
    simp [h0, hnow]
  refine ⟨h, ?_⟩
  rw [h]
  unfold recordFailedAttempt initialRateLimitState MAX_FAILED_ATTEMPTS
  simp

theorem lock_expiry_resets_witness :
    isLocked 30000 { failedAttempts := 5, lockUntil := some 30000 } =
      (false, initialRateLimitState) ∧
    recordFailedAttempt 30001
        (isLocked 30000 { failedAttempts := 5, lockUntil := some 30000 }).2 =
      { failedAttempts := 1, lockUntil := none } :=
  lock_expiry_resets 5 30000 30000 30001 (by decide) (by decide) (by decide)

/-- C5 counterexample: in the locked state `⟨5, some 30000⟩` (locked at
clock 1000), `recordFailedAttempt()` does move `lockUntil`: it re-sets it
to `1000 + 30000 = 31000 ≠ 30000`. -/
theorem refail_while_locked_moves_lockUntil :
    (isLocked 1000 { failedAttempts := 5, lockUntil := some 30000 }).1 = true ∧
    (recordFailedAttempt 1000
        { failedAttempts := 5, lockUntil := some 30000 }).lockUntil
      ≠ some 30000 := by
  decide

/-- C5 amended: `recordFailedAttempt()` while already locked increments
the counter and re-sets `lockUntil` to `now + LOCKOUT_DURATION_MS`
(extending the lockout window whenever the clock has advanced past the
moment the lock was set). -/
theorem refail_while_locked (fa t now : Nat) (hfa : MAX_FAILED_ATTEMPTS ≤ fa) :
    recordFailedAttempt now { failedAttempts := fa, lockUntil := some t } =
      { failedAttempts := fa + 1,
        lockUntil := some (now + LOCKOUT_DURATION_MS) } := by
  unfold recordFailedAttempt MAX_FAILED_ATTEMPTS at *
  simp
  omega

theorem refail_while_locked_witness :
    recordFailedAttempt 1000 { failedAttempts := 5, lockUntil := some 30000 } =
      { failedAttempts := 6, lockUntil := some (1000 + LOCKOUT_DURATION_MS) } :=
  refail_while_locked 5 30000 1000 (by decide)

/-! ### Claims about the auth store -/

/-- C4: when `isLocked()` reports true, `authenticate(pin)` returns false
and leaves the rate-limit state exactly as it was (no failure recorded,
the PIN never checked). -/
theorem authenticate_while_locked (digest : String → String) (now : Nat)
    (pin : String) (store : Store) (rl : RateLimitState)
    (h : (isLocked now rl).1 = true) :
    authenticate digest now pin store rl = (false, rl) := by
  have hpair : isLocked now rl = (true, rl) := by
    have h2 := isLocked_true_frame now rl h
    cases hi : isLocked now rl with
    | mk a b =>
        rw [hi] at h h2
        simp at h h2
        rw [h, h2]
  unfold authenticate
  rw [hpair]
  rfl

theorem authenticate_while_locked_witness :
    authenticate demoDigest 1000 "1234"
        { pinHash := none, pinSalt := none,
          firstLaunch := none, securityQuestions := none }
        { failedAttempts := 5, lockUntil := some 30000 } =
      (false, { failedAttempts := 5, lockUntil := some 30000 }) :=
  authenticate_while_locked demoDigest 1000 "1234"
    { pinHash := none, pinSalt := none,
      firstLaunch := none, securityQuestions := none }
    { failedAttempts := 5, lockUntil := some 30000 } (by decide)

/-- C7: after `clearPin()` removes the stored hash and salt, the PIN is
reported as not set, every PIN fails verification, and security-answer
verification returns false for every answers list (the salt is gone). -/
theorem clearPin_disables_auth (digest : String → String) (pin : String)
    (answers : List String) (s : Store) :
    isPinSetup (clearPin s) = false ∧
    verifyPin digest pin (clearPin s) = false ∧
    verifySecurityAnswers digest answers (clearPin s) = false := by
  refine ⟨rfl, rfl, ?_⟩
  unfold verifySecurityAnswers clearPin
  cases s.securityQuestions <;> rfl

/-! ### Claims about the biometric path -/

/-- C9: `authenticateWithBiometric` short-circuits with the
not-supported / not-enabled failure without invoking the platform prompt
(second component false), and `authenticateBiometric` passes the
rate-limit state through untouched for every outcome. -/
theorem biometric_short_circuit_and_frame (hw en enb : Bool)
    (ch : ChallengeOutcome) (rl : RateLimitState) :
    ((hw && en) = false →
      authenticateWithBiometric hw en enb ch =
        ({ success := false,
           error := some "Biometric not supported on this device" }, false)) ∧
    ((hw && en) = true → enb = false →
      authenticateWithBiometric hw en enb ch =
        ({ success := false,
           error := some "Biometric authentication is not enabled" }, false)) ∧
    (authenticateBiometric hw en enb ch rl).2 = rl := by
  refine ⟨?_, ?_, rfl⟩
  · intro h
    unfold authenticateWithBiometric
    rw [h]
    rfl
  · intro h h2
    unfold authenticateWithBiometric
    rw [h, h2]
    rfl

theorem biometric_short_circuit_and_frame_witness :
    authenticateWithBiometric false true true .success =
      ({ success := false,
         error := some "Biometric not supported on this device" }, false) ∧
    (authenticateBiometric false true true .success
        { failedAttempts := 2, lockUntil := some 7 }).2 =
      { failedAttempts := 2, lockUntil := some 7 } :=
  ⟨(biometric_short_circuit_and_frame false true true .success
      { failedAttempts := 2, lockUntil := some 7 }).1 (by decide),
    (biometric_short_circuit_and_frame false true true .success
      { failedAttempts := 2, lockUntil := some 7 }).2.2⟩

/-! ### Claims about security questions -/

/-- The comparison loop rejects an answers list shorter than the stored
question list (the out-of-bounds read throws and the `catch` yields
false). -/
theorem checkAnswers_short (digest : String → String) (salt : String)
    (qs : List SecurityQuestion) (answers : List String)
    (h : answers.length < qs.length) :
    checkAnswers digest salt qs answers = false := by
  induction qs generalizing answers with
  | nil => simp at h
  | cons q rest ih =>
      cases answers with
      | nil => rfl
      | cons a as =>
          have h2 : as.length < rest.length := by
            simp at h
            omega
          simp only [checkAnswers]
          split
          · exact ih as h2
          · rfl

/-- The comparison loop rejects whenever any in-range position holds a
mismatching answer hash, no matter where the mismatch sits. -/
theorem checkAnswers_mismatch (digest : String → String) (salt : String)
    (qs : List SecurityQuestion) (answers : List String) (i : Nat)
    (h1 : i < qs.length) (h2 : i < answers.length)
    (hne : hashPin digest (normalizeAnswer (answers.get ⟨i, h2⟩)) salt ≠
      (qs.get ⟨i, h1⟩).answerHash) :
    checkAnswers digest salt qs answers = false := by
  induction qs generalizing answers i with
  | nil => simp at h1
  | cons q rest ih =>
      cases answers with
      | nil => rfl
      | cons a as =>
          cases i with
          | zero =>
              have hcond :
                  (hashPin digest (normalizeAnswer a) salt == q.answerHash)
                    = false :=
                beq_eq_false_iff_ne.mpr hne
              simp [checkAnswers, hcond]
          | succ j =>
              have h1' : j < rest.length := by
                simp at h1
                omega
              have h2' : j < as.length := by
                simp at h2
                omega
              simp only [checkAnswers]
              split
              · exact ih as j h1' h2' hne
              · rfl

/-- C6: with a stored question list and a nonempty salt,
`verifySecurityAnswers` returns false whenever the supplied answers list
is shorter than the stored question list, and false whenever any single
normalized answer hashes to a value different from the stored hash at
the same position — regardless of which mismatch comes first. -/
theorem verifyAnswers_rejects (digest : String → String) (salt : String)
    (qs : List SecurityQuestion) (answers : List String) (s : Store)
    (hq : s.securityQuestions = some qs) (hsalt : s.pinSalt = some salt)
    (hse : salt ≠ "") :
    (answers.length < qs.length →
      verifySecurityAnswers digest answers s = false) ∧
    (∀ i, ∀ h1 : i < qs.length, ∀ h2 : i < answers.length,
      hashPin digest (normalizeAnswer (answers.get ⟨i, h2⟩)) salt ≠
        (qs.get ⟨i, h1⟩).answerHash →
      verifySecurityAnswers digest answers s = false) := by
  have hv : verifySecurityAnswers digest answers s =
      checkAnswers digest salt qs answers := by
    unfold verifySecurityAnswers
    rw [hq, hsalt]
    simp [isEmpty_false_of_ne salt hse]
  constructor
  · intro hlen
    rw [hv]
    exact checkAnswers_short digest salt qs answers hlen
  · intro i h1 h2 hne
    rw [hv]
    exact checkAnswers_mismatch digest salt qs answers i h1 h2 hne

theorem verifyAnswers_rejects_witness :
    verifySecurityAnswers demoDigest []
      { pinHash := some "ph", pinSalt := some "ab",
        firstLaunch := none,
        securityQuestions := some [{ question := "q", answerHash := "h" }] }
      = false :=
  (verifyAnswers_rejects demoDigest "ab"
      [{ question := "q", answerHash := "h" }] []
      { pinHash := some "ph", pinSalt := some "ab",
        firstLaunch := none,
        securityQuestions := some [{ question := "q", answerHash := "h" }] }
      rfl rfl (by decide)).1 (by decide)

/-- C10: when a salt is present, `saveSecurityQuestions` accepts the
empty question list, and `verifySecurityAnswers` then returns true for
every supplied answers list — the positional loop is vacuous. -/
theorem empty_questions_vacuous (digest : String → String) (salt : String)
    (s : Store) (hsalt : s.pinSalt = some salt) (hse : salt ≠ "")
    (answers : List String) :
    (saveSecurityQuestions digest [] s).2 = true ∧
    verifySecurityAnswers digest answers (saveSecurityQuestions digest [] s).1
      = true := by
  have he := isEmpty_false_of_ne salt hse
  constructor
  · simp [saveSecurityQuestions, hsalt, he]
  · simp [saveSecurityQuestions, hsalt, he, verifySecurityAnswers,
      checkAnswers]

/-- A store as it looks right after a PIN was set up with salt "ab". -/
def demoStore : Store :=
  { pinHash := some (demoDigest ("1234" ++ "ab")), pinSalt := some "ab",
    firstLaunch := some "false", securityQuestions := none }

theorem empty_questions_vacuous_witness :
    (saveSecurityQuestions demoDigest [] demoStore).2 = true ∧
    verifySecurityAnswers demoDigest ["x"]
      (saveSecurityQuestions demoDigest [] demoStore).1 = true :=
  empty_questions_vacuous demoDigest "ab" demoStore rfl (by decide) ["x"]

/-! ### Claims about the credential lifecycle -/

/-- C1: assuming an injective digest with nonempty output and a nonempty
salt, `setupPin(p)` followed by `verifyPin(p)` returns true, and
`verifyPin(p2)` returns false for every `p2 ≠ p`. -/
theorem setup_then_verify (digest : String → String)
    (hinj : Function.Injective digest) (hne : ∀ x, digest x ≠ "")
    (salt pin pin2 : String) (hsalt : salt ≠ "") (hp : pin2 ≠ pin)
    (s : Store) :
    verifyPin digest pin (setupPin digest salt pin s).1 = true ∧
    verifyPin digest pin2 (setupPin digest salt pin s).1 = false := by
  have hse := isEmpty_false_of_ne salt hsalt
  have hde := isEmpty_false_of_ne _ (hne (pin ++ salt))
  constructor
  · simp [setupPin, verifyPin, hashPin, hse, hde]
  · simp [setupPin, verifyPin, hashPin, hse, hde]
    intro hcontra
    exact absurd (hinj hcontra) (append_right_ne pin2 pin salt hp)

/-- The empty secure store (fresh install, nothing persisted). -/
def emptyStore : Store :=
  { pinHash := none, pinSalt := none, firstLaunch := none,
    securityQuestions := none }

theorem setup_then_verify_witness :
    verifyPin demoDigest "1234"
      (setupPin demoDigest "ab" "1234" emptyStore).1 = true ∧
    verifyPin demoDigest "9999"
      (setupPin demoDigest "ab" "1234" emptyStore).1 = false :=
  setup_then_verify demoDigest demoDigest_injective demoDigest_ne_empty
    "ab" "1234" "9999" (by decide) (by decide) emptyStore

/-- C8: `changePin(current, new)` fails with the wrong-current error and
leaves the store untouched when `verifyPin(current)` is false; when
`verifyPin(current)` is true it succeeds, after which the new PIN
verifies and the old one (if different) no longer does. -/
theorem changePin_spec (digest : String → String)
    (hinj : Function.Injective digest) (hne : ∀ x, digest x ≠ "")
    (newSalt currentPin newPin : String) (hsalt : newSalt ≠ "")
    (hp : currentPin ≠ newPin) (s : Store) :
    (verifyPin digest currentPin s = false →
      changePin digest newSalt currentPin newPin s =
        (s, (false, some "Current PIN is incorrect"))) ∧
    (verifyPin digest currentPin s = true →
      (changePin digest newSalt currentPin newPin s).2.1 = true ∧
      verifyPin digest newPin
        (changePin digest newSalt currentPin newPin s).1 = true ∧
      verifyPin digest currentPin
        (changePin digest newSalt currentPin newPin s).1 = false) := by
  constructor
  · intro hv
    unfold changePin
    rw [hv]
    rfl
  · intro hv
    have hmain := setup_then_verify digest hinj hne newSalt newPin currentPin
      hsalt hp s
    have hcp : changePin digest newSalt currentPin newPin s =
        ((setupPin digest newSalt newPin s).1, (true, none)) := by
      unfold changePin
      rw [hv]
      rfl
    rw [hcp]
    exact ⟨rfl, hmain.1, hmain.2⟩

/-- The demo store after `setupPin` with PIN "1234" and salt "ab". -/
def demoStore1 : Store :=
  (setupPin demoDigest "ab" "1234" emptyStore).1

theorem changePin_spec_witness :
    (changePin demoDigest "cd" "1234" "5678" demoStore1).2.1 = true ∧
    verifyPin demoDigest "5678"
      (changePin demoDigest "cd" "1234" "5678" demoStore1).1 = true ∧
    verifyPin demoDigest "1234"
      (changePin demoDigest "cd" "1234" "5678" demoStore1).1 = false :=
  (changePin_spec demoDigest demoDigest_injective demoDigest_ne_empty
      "cd" "1234" "5678" (by decide) (by decide) demoStore1).2 (by decide)

end ExpenseManager
